import Mathlib

/-!
# PhantomHand backend supervisor — verification development

Shallow embedding of `src/tauri_app/src-tauri/src/main.rs`: the backend
process supervisor (`start_backend`, `restart_backend`,
`get_backend_status`), the event-relay task spawned by `start_backend`,
the setup hook that starts the backend at application launch, and the
system-tray event handler.

Modelling decisions:
* The OS / sidecar environment is a `SpawnEnv`: whether
  `Command::new_sidecar` fails, whether `.spawn()` fails, and the stream
  of `CommandEvent`s the spawned worker will put on its output channel.
* Observable effects (console prints, `emit_all` UI notifications,
  `std::process::exit`) are reified as an `Emission` list.
* Shared state is a `World`: the `backend_running` flag (the `AppState`
  mutex content), the list of spawned workers (each owning its argument
  vector and its private output channel), and the optional main window.
* The relay task is a pure function of its channel content: it owns the
  channel exclusively and, in the source, never touches `AppState`, so
  its state component is passed through unchanged.
-/

set_option autoImplicit false

namespace PhantomHand

/-- Exit payload of a terminated sidecar process
(`tauri::api::process::TerminatedPayload`: exit code and signal). -/
structure TerminatedPayload where
  code : Option Int
  signal : Option Int
  deriving DecidableEq, Repr

/-- An event on the sidecar's output channel
(`tauri::api::process::CommandEvent`). The enum is non-exhaustive in the
source; `other` stands for any variant matched only by the catch-all
`_ => {}` arm of the relay. -/
inductive CommandEvent where
  | stdout (line : String)
  | stderr (line : String)
  | error (err : String)
  | terminated (payload : TerminatedPayload)
  | other
  deriving DecidableEq, Repr

/-- Payload of an `emit_all` UI notification. `unitPayload` models the
Rust unit value `()`; `str` a string payload; `term` a termination
payload (serialisable, hence expressible — used to state what the spec
asserts about the `backend-stopped` payload). -/
inductive EmitPayload where
  | unitPayload
  | str (s : String)
  | term (p : TerminatedPayload)
  deriving DecidableEq, Repr

/-- An observable effect of the program: a `println!`, an `eprintln!`,
an `app_handle.emit_all(event, payload)`, or `std::process::exit(code)`. -/
inductive Emission where
  | consoleOut (s : String)
  | consoleErr (s : String)
  | emitAll (event : String) (payload : EmitPayload)
  | exitProcess (code : Int)
  deriving DecidableEq, Repr

/-- Rust `Debug` rendering of an `Option<i32>`. -/
def optIntDebug : Option Int → String
  | some n => "Some(" ++ toString n ++ ")"
  | none => "None"

/-- Rust `Debug` rendering of a `TerminatedPayload`, as produced by the
`{:?}` format in the relay's `println!`. -/
def terminatedPayloadDebug (p : TerminatedPayload) : String :=
  "TerminatedPayload \x7b code: " ++ optIntDebug p.code ++
    ", signal: " ++ optIntDebug p.signal ++ " \x7d"

/-- One iteration of the relay loop in `start_backend`: the effects the
relay performs for a single received `CommandEvent`. -/
def relayEmits : CommandEvent → List Emission
  | .stdout line => [.consoleOut ("[Backend] " ++ line)]
  | .stderr line => [.consoleErr ("[Backend Error] " ++ line)]
  | .error err =>
      [.consoleErr ("[Backend Fatal] " ++ err),
       .emitAll "backend-error" (.str err)]
  | .terminated p =>
      [.consoleOut ("[Backend] 进程退出: " ++ terminatedPayloadDebug p),
       .emitAll "backend-stopped" .unitPayload]
  | .other => []

/-- The whole relay task: drain the channel (`while let Some(event) =
rx.recv().await`), performing `relayEmits` for each event in arrival
order, and stop when the channel closes (end of list). -/
def relayRun (events : List CommandEvent) : List Emission :=
  events.flatMap relayEmits

/-- A spawned sidecar worker: the argument vector it was spawned with and
the content of its private output channel. -/
structure Worker where
  args : List String
  events : List CommandEvent
  deriving DecidableEq, Repr

/-- The main window; `show`/`set_focus`/`hide` toggle these flags. -/
structure MainWindow where
  visible : Bool
  focused : Bool
  deriving DecidableEq, Repr

/-- Shared application state: the `AppState.backend_running` mutex
content, the workers spawned so far (each with its own relay), and the
optional `"main"` window. -/
structure World where
  backend_running : Bool
  workers : List Worker
  window : Option MainWindow
  deriving DecidableEq, Repr

/-- The environment `start_backend` runs against: the failure (if any) of
`Command::new_sidecar("PhantomHandBackend")`, the failure (if any) of
`.spawn()`, and the event stream the worker would produce once spawned. -/
structure SpawnEnv where
  sidecar_err : Option String
  spawn_err : Option String
  events : List CommandEvent
  deriving DecidableEq, Repr

/-- The `start_backend` function: create the sidecar command, set its arguments to
`["--port", "8765"]`, spawn it, and on success schedule one relay task
over the new worker's channel, then print a startup line. Failures are
returned as descriptive strings; nothing else happens on failure. -/
def start_backend (env : SpawnEnv) (w : World) :
    Except String Unit × World × List Emission :=
  match env.sidecar_err with
  | some e => (.error ("无法创建 sidecar: " ++ e), w, [])
  | none =>
    match env.spawn_err with
    | some e => (.error ("无法启动后端: " ++ e), w, [])
    | none =>
      (.ok (),
       { w with workers := w.workers ++ [⟨["--port", "8765"], env.events⟩] },
       [.consoleOut "[Tauri] 后端已启动"])

/-- Hook the relay into the world: the relay closure only owns its channel
receiver and a cloned `AppHandle` used for `emit_all`; it has no access to
`AppState`, so the world passes through unchanged while the emissions of
`relayEmits` are produced. -/
def relayStepW (e : CommandEvent) (w : World) : World × List Emission :=
  (w, relayEmits e)

/-- Tauri command `get_backend_status`: read the `backend_running` flag. -/
def get_backend_status (w : World) : Bool :=
  w.backend_running

/-- Tauri command `restart_backend`: call `start_backend` again (without
stopping any previous worker); propagate its error, or return the fixed
success message. -/
def restart_backend (env : SpawnEnv) (w : World) :
    Except String String × World × List Emission :=
  match start_backend env w with
  | (.error e, wNew, em) => (.error e, wNew, em)
  | (.ok _, wNew, em) => (.ok "后端已重启", wNew, em)

/-- The `.setup(...)` closure of `main`: call `start_backend`; on failure
print an error and continue; on success set `backend_running := true`. -/
def setup_hook (env : SpawnEnv) (w : World) : World × List Emission :=
  match start_backend env w with
  | (.error e, wNew, em) =>
      (wNew, em ++ [.consoleErr ("[Tauri] 启动后端失败: " ++ e)])
  | (.ok _, wNew, em) =>
      ({ wNew with backend_running := true }, em)

/-- A system-tray event as dispatched by the `on_system_tray_event`
closure. `otherEvent` stands for the variants matched by the catch-all
arm (right click, double click, ...). -/
inductive SystemTrayEvent where
  | leftClick
  | menuItemClick (id : String)
  | otherEvent
  deriving DecidableEq, Repr

/-- The `on_system_tray_event` closure of `main`: left click shows and
focuses the main window if present; menu items `show`/`hide`/`quit` show
and focus, hide, or exit the process; everything else is ignored. -/
def on_system_tray_event (ev : SystemTrayEvent) (w : World) :
    World × List Emission :=
  match ev with
  | .leftClick =>
    match w.window with
    | some win =>
        ({ w with window := some { win with visible := true, focused := true } }, [])
    | none => (w, [])
  | .menuItemClick id =>
    if id = "show" then
      match w.window with
      | some win =>
          ({ w with window := some { win with visible := true, focused := true } }, [])
      | none => (w, [])
    else if id = "hide" then
      match w.window with
      | some win =>
          ({ w with window := some { win with visible := false } }, [])
      | none => (w, [])
    else if id = "quit" then
      (w, [.exitProcess 0])
    else (w, [])
  | .otherEvent => (w, [])

/-- Recognise a `backend-stopped` UI notification among emissions. -/
def isBackendStopped : Emission → Bool
  | .emitAll "backend-stopped" _ => true
  | _ => false

/-- Recognise a process-exit effect among emissions. -/
def isExitEmission : Emission → Bool
  | .exitProcess _ => true
  | _ => false

/-! ## Helper lemmas -/

/-- The `start_backend` function never writes the `backend_running` flag:
only the setup closure in `main` does, after `start_backend` returns. -/
theorem start_backend_preserves_running (env : SpawnEnv) (w : World) :
    (start_backend env w).2.1.backend_running = w.backend_running := by
  rcases env with ⟨se, pe, es⟩
  cases se <;> cases pe <;> rfl

/-- The `start_backend` function never removes or modifies previously
spawned workers: the old worker list is a prefix of the new one. -/
theorem start_backend_preserves_workers (env : SpawnEnv) (w : World) :
    (start_backend env w).2.1.workers.take w.workers.length = w.workers := by
  rcases env with ⟨se, pe, es⟩
  cases se <;> cases pe <;>
    simp [start_backend, List.take_left, List.take_length]

/-! ## Claims -/

/-- C1, counterexample: the claim says every successful invocation of
start, including the one performed by `restart_backend`, sets the running
flag to true. On the code, a successful `restart_backend` from a state
with `backend_running = false` returns the success message while
`get_backend_status` still reports `false`: `restart_backend` never
touches the flag. -/
theorem c1_counterexample :
    (restart_backend ⟨none, none, []⟩ ⟨false, [], none⟩).1 = .ok "后端已重启" ∧
    get_backend_status (restart_backend ⟨none, none, []⟩ ⟨false, [], none⟩).2.1 = false :=
  ⟨rfl, rfl⟩

/-- C1, amended: only the application-setup start path sets the running
flag — after a successful `start_backend`, the setup hook sets
`backend_running := true` so `get_backend_status` returns `true`, while
the start performed by `restart_backend` leaves the flag (and hence
`get_backend_status`) unchanged. -/
theorem c1_running_flag (env : SpawnEnv) (w : World)
    (h : (start_backend env w).1 = .ok ()) :
    get_backend_status (setup_hook env w).1 = true ∧
    get_backend_status (restart_backend env w).2.1 = get_backend_status w := by
  rcases env with ⟨se, pe, es⟩
  cases se with
  | some e => simp [start_backend] at h
  | none =>
    cases pe with
    | some e => simp [start_backend] at h
    | none => exact ⟨rfl, rfl⟩

/-- Witness for C1 at a concrete successful environment and initial
state. -/
theorem c1_running_flag_witness :
    get_backend_status (setup_hook ⟨none, none, []⟩ ⟨false, [], none⟩).1 = true ∧
    get_backend_status (restart_backend ⟨none, none, []⟩ ⟨false, [], none⟩).2.1 =
      get_backend_status ⟨false, [], none⟩ :=
  c1_running_flag ⟨none, none, []⟩ ⟨false, [], none⟩ rfl

/-- C2: when sidecar creation or spawning fails, `start_backend` returns
a descriptive error string (the "无法创建 sidecar: "/"无法启动后端: "
message wrapping the underlying reason), and the rest of its effect is
empty: the world (running flag, worker/relay list, window) is unchanged
and nothing is emitted — in particular no relay task is created. -/
theorem c2_spawn_failure (env : SpawnEnv) (w : World)
    (h : env.sidecar_err ≠ none ∨ env.spawn_err ≠ none) :
    (∃ s, (start_backend env w).1 = .error s ∧
      ((∃ e, env.sidecar_err = some e ∧ s = "无法创建 sidecar: " ++ e) ∨
       (env.sidecar_err = none ∧
        ∃ e, env.spawn_err = some e ∧ s = "无法启动后端: " ++ e))) ∧
    (start_backend env w).2 = (w, []) := by
  rcases env with ⟨se, pe, es⟩
  cases se with
  | some e => exact ⟨⟨_, rfl, Or.inl ⟨e, rfl, rfl⟩⟩, rfl⟩
  | none =>
    cases pe with
    | some e => exact ⟨⟨_, rfl, Or.inr ⟨rfl, e, rfl, rfl⟩⟩, rfl⟩
    | none => simp at h

/-- Witness for C2 at a concrete failing environment. -/
theorem c2_spawn_failure_witness :
    (∃ s, (start_backend ⟨some "no exe", none, []⟩ ⟨false, [], none⟩).1 = .error s ∧
      ((∃ e, (⟨some "no exe", none, []⟩ : SpawnEnv).sidecar_err = some e ∧
          s = "无法创建 sidecar: " ++ e) ∨
       ((⟨some "no exe", none, []⟩ : SpawnEnv).sidecar_err = none ∧
        ∃ e, (⟨some "no exe", none, []⟩ : SpawnEnv).spawn_err = some e ∧
          s = "无法启动后端: " ++ e))) ∧
    (start_backend ⟨some "no exe", none, []⟩ ⟨false, [], none⟩).2 =
      ((⟨false, [], none⟩ : World), []) :=
  c2_spawn_failure ⟨some "no exe", none, []⟩ ⟨false, [], none⟩ (Or.inl (by simp))

/-- C3, counterexample: the claim says the `backend-stopped` notification
carries the termination descriptor of the event. On the code, for a
worker terminating with exit code 0, the relay does not emit a
`backend-stopped` notification carrying that payload: it emits the unit
payload `()` instead. -/
theorem c3_counterexample :
    Emission.emitAll "backend-stopped" (.term ⟨some 0, none⟩) ∉
      relayEmits (.terminated ⟨some 0, none⟩) := by
  decide

/-- C3, amended: on a `Terminated` event the relay emits exactly one
`backend-stopped` notification, whose payload is the unit value `()` (the
termination descriptor is only printed to the console, not attached to
the notification), and the relay leaves the world — in particular the
running flag read by `get_backend_status` — unchanged. -/
theorem c3_terminated_relay (p : TerminatedPayload) (w : World) :
    (relayEmits (.terminated p)).filter isBackendStopped =
      [.emitAll "backend-stopped" .unitPayload] ∧
    (relayStepW (.terminated p) w).1 = w ∧
    get_backend_status (relayStepW (.terminated p) w).1 = get_backend_status w :=
  ⟨rfl, rfl, rfl⟩

/-- C4: a successful `start_backend` appends exactly one new worker,
whose private channel holds that worker instance's whole event stream and
is handed to exactly one relay; the relay consumes the channel in order —
its output over a concatenation of streams is the concatenation of its
outputs (FIFO), each event contributes its notifications at its position,
and on a closed (empty) channel the relay produces nothing more and
stops. -/
theorem c4_relay_fifo (env : SpawnEnv) (w : World)
    (xs ys : List CommandEvent) (e : CommandEvent)
    (h : (start_backend env w).1 = .ok ()) :
    (start_backend env w).2.1.workers =
      w.workers ++ [⟨["--port", "8765"], env.events⟩] ∧
    relayRun (xs ++ ys) = relayRun xs ++ relayRun ys ∧
    relayRun (e :: xs) = relayEmits e ++ relayRun xs ∧
    relayRun [] = [] := by
  refine ⟨?_, ?_, rfl, rfl⟩
  · rcases env with ⟨se, pe, es⟩
    cases se with
    | some a => simp [start_backend] at h
    | none =>
      cases pe with
      | some a => simp [start_backend] at h
      | none => rfl
  · simp [relayRun]

/-- Witness for C4 at a concrete successful environment, channel and
event. -/
theorem c4_relay_fifo_witness :
    (start_backend ⟨none, none, [CommandEvent.other]⟩ ⟨false, [], none⟩).2.1.workers =
      (⟨false, [], none⟩ : World).workers ++
        [⟨["--port", "8765"], (⟨none, none, [CommandEvent.other]⟩ : SpawnEnv).events⟩] ∧
    relayRun ([CommandEvent.other] ++ []) =
      relayRun [CommandEvent.other] ++ relayRun [] ∧
    relayRun (CommandEvent.other :: [CommandEvent.other]) =
      relayEmits CommandEvent.other ++ relayRun [CommandEvent.other] ∧
    relayRun [] = [] :=
  c4_relay_fifo ⟨none, none, [CommandEvent.other]⟩ ⟨false, [], none⟩
    [CommandEvent.other] [] CommandEvent.other rfl

/-- C5: on a runtime error event the relay emits a `backend-error`
notification carrying the error description; none of its effects is a
process exit (the application keeps running), and the world — in
particular the running flag read by `get_backend_status` — is
unchanged. -/
theorem c5_error_event (err : String) (w : World) :
    Emission.emitAll "backend-error" (.str err) ∈ relayEmits (.error err) ∧
    (relayEmits (.error err)).filter isExitEmission = [] ∧
    (relayStepW (.error err) w).1 = w ∧
    get_backend_status (relayStepW (.error err) w).1 = get_backend_status w := by
  refine ⟨?_, rfl, rfl, rfl⟩
  simp [relayEmits]

/-- C6: `restart_backend` has exactly the effect of `start_backend` — the
resulting world and emissions coincide, and its result is
`start_backend`'s result with the success payload replaced by the fixed
message (so spawn failures propagate as the same error). It performs no
stop: every previously spawned worker, with its channel and relay, is
left in place as a prefix of the new worker list. -/
theorem c6_restart_same_as_start (env : SpawnEnv) (w : World) :
    (restart_backend env w).2 = (start_backend env w).2 ∧
    (restart_backend env w).1 =
      Except.map (fun _ => "后端已重启") (start_backend env w).1 ∧
    (restart_backend env w).2.1.workers.take w.workers.length = w.workers := by
  rcases env with ⟨se, pe, es⟩
  cases se <;> cases pe <;>
    exact ⟨rfl, rfl, by simp [start_backend, restart_backend,
      List.take_left, List.take_length]⟩

/-- C7: the tray `hide` menu action only clears the main window's
visibility flag when the window exists and does nothing when it is absent
(stated as one equation via `Option.map`), emits nothing, and changes
nothing else — `get_backend_status` returns the same value before and
after. -/
theorem c7_hide_window (w : World) :
    on_system_tray_event (.menuItemClick "hide") w =
      ({ w with window := w.window.map fun win => { win with visible := false } }, []) ∧
    get_backend_status (on_system_tray_event (.menuItemClick "hide") w).1 =
      get_backend_status w := by
  rcases w with ⟨r, ws, win⟩
  cases win <;> exact ⟨rfl, rfl⟩

/-- C8: a left click on the tray icon and the `show` menu item run the
same handler body: both make the main window visible and focused when it
exists, and are a complete no-op (no state change, no emission) when it
is absent. -/
theorem c8_leftclick_equals_show (w : World) :
    on_system_tray_event .leftClick w = on_system_tray_event (.menuItemClick "show") w ∧
    on_system_tray_event .leftClick w =
      ({ w with window :=
          w.window.map fun win => { win with visible := true, focused := true } }, []) := by
  rcases w with ⟨r, ws, win⟩
  cases win <;> exact ⟨rfl, rfl⟩

/-- C9: whenever `start_backend` succeeds, the worker it spawned was
invoked with exactly the argument pair `--port 8765`; the arguments do
not depend on the environment or on any application state (the theorem
holds for every `env` and every world `w`). -/
theorem c9_fixed_args (env : SpawnEnv) (w : World)
    (h : (start_backend env w).1 = .ok ()) :
    ∃ wk : Worker, (start_backend env w).2.1.workers = w.workers ++ [wk] ∧
      wk.args = ["--port", "8765"] := by
  rcases env with ⟨se, pe, es⟩
  cases se with
  | some a => simp [start_backend] at h
  | none =>
    cases pe with
    | some a => simp [start_backend] at h
    | none => exact ⟨⟨["--port", "8765"], es⟩, rfl, rfl⟩

/-- Witness for C9 at a concrete successful environment. -/
theorem c9_fixed_args_witness :
    ∃ wk : Worker,
      (start_backend ⟨none, none, []⟩ ⟨false, [], none⟩).2.1.workers =
        (⟨false, [], none⟩ : World).workers ++ [wk] ∧
      wk.args = ["--port", "8765"] :=
  c9_fixed_args ⟨none, none, []⟩ ⟨false, [], none⟩ rfl

/-- C10: an event matched only by the catch-all arm of the relay loop
produces no console output and no UI notification, leaves the world
untouched, and the relay simply continues with the rest of the
channel. -/
theorem c10_other_events_ignored (w : World) (xs : List CommandEvent) :
    relayEmits .other = [] ∧
    relayStepW .other w = (w, []) ∧
    relayRun (CommandEvent.other :: xs) = relayRun xs :=
  ⟨rfl, rfl, rfl⟩

end PhantomHand
